import Mathlib

/-!
Verification of the AION Python SDK core (`src/sdk/python/src/aion_sdk/`):
the HTTP request executor (`client.py`: `AionClient.request`,
`AionClient._handle_response`), the error taxonomy (`exceptions.py`), the
WebSocket subscription engine (`websocket.py`: `WebSocketClient`), and the
SSE progress listener (`progress.py`: `ProgressListener`).

The embedding is shallow: Python dictionaries decoded from JSON become a
`Json` inductive, exceptions become an `AionErr`/`RaisedErr` sum returned
through `Except`, the retry loop of `AionClient.request` becomes structural
recursion over the remaining retry budget with the transport modelled as a
function from attempt index to outcome, and the WebSocket client's mutable
fields (`_websocket`, `_subscriptions`, `_running`) become an explicit
`WSState` record threaded through the operations.  `details` payloads
attached to exceptions are omitted: no property below observes them.
-/

/-- JSON values, the result of `response.json()`. -/
inductive Json where
  | null : Json
  | bool (b : Bool) : Json
  | num (n : Int) : Json
  | str (s : String) : Json
  | arr (elems : List Json) : Json
  | obj (fields : List (String × Json)) : Json
deriving Repr

/-- First binding of a key in a decoded JSON object (keys are unique after
Python's `json.loads`). -/
def lookupField : List (String × Json) → String → Option Json
  | [], _ => none
  | (k, v) :: rest, key => if k = key then some v else lookupField rest key

/-- `models.ApiResponse`: `data: Any`, `success: bool = True`,
`message: Optional[str] = None`. -/
structure ApiResponse where
  data : Json
  success : Bool
  message : Option String
deriving Repr

/-- Pydantic validation of `ApiResponse` on a decoded JSON object:
`data` is required, `success` defaults to `True` and must be a boolean,
`message` defaults to `None` and must be a string or null; extra keys are
ignored.  `none` models a raised `ValidationError`. -/
def validateApiResponse (fields : List (String × Json)) : Option ApiResponse :=
  match lookupField fields "data" with
  | none => none
  | some d =>
    let succ : Option Bool :=
      match lookupField fields "success" with
      | none => some true
      | some (Json.bool b) => some b
      | some _ => none
    let msg : Option (Option String) :=
      match lookupField fields "message" with
      | none => some none
      | some Json.null => some none
      | some (Json.str s) => some (some s)
      | some _ => none
    match succ, msg with
    | some b, some m => some ⟨d, b, m⟩
    | _, _ => none

/-- Pydantic validation of `models.ApiError` (`error: str`, `message: str`,
optional `code`/`details`), returning the `message` field the client reads;
`none` models a raised `ValidationError`. -/
def validateApiError (fields : List (String × Json)) : Option String :=
  match lookupField fields "error", lookupField fields "message" with
  | some (Json.str _), some (Json.str m) =>
    let codeOk :=
      match lookupField fields "code" with
      | none => true
      | some Json.null => true
      | some (Json.str _) => true
      | some _ => false
    let detailsOk :=
      match lookupField fields "details" with
      | none => true
      | some Json.null => true
      | some (Json.obj _) => true
      | some _ => false
    if codeOk && detailsOk then some m else none
  | _, _ => none

/-- The exception taxonomy of `exceptions.py`, restricted to the classes the
client raises; each constructor carries the `message` the Python class
stores. -/
inductive AionErr where
  | authentication (msg : String) : AionErr
  | authorization (msg : String) : AionErr
  | notFound (msg : String) : AionErr
  | validation (msg : String) : AionErr
  | rateLimited (msg : String) (retryAfter : Option Int) : AionErr
  | api (msg : String) (status : Nat) : AionErr
  | connection (msg : String) : AionErr
  | timeout (msg : String) : AionErr
  | websocket (msg : String) : AionErr
  | generic (msg : String) : AionErr
deriving Repr, DecidableEq

/-- The HTTP status stored by each `AionAPIError` subclass
(`AionAuthenticationError` → 401, ..., `AionAPIError` → its argument);
`none` for the non-API errors that have no `status_code` attribute. -/
def AionErr.statusCode : AionErr → Option Nat
  | .authentication _ => some 401
  | .authorization _ => some 403
  | .notFound _ => some 404
  | .validation _ => some 400
  | .rateLimited _ _ => some 429
  | .api _ s => some s
  | _ => none

/-- `AionAPIError.is_server_error`: `500 <= status_code < 600`. -/
def is_server_error (status : Nat) : Bool := 500 ≤ status && status < 600

/-- `AionAPIError.is_client_error`: `400 <= status_code < 500`. -/
def is_client_error (status : Nat) : Bool := 400 ≤ status && status < 500

/-- The `is_retryable` property: `AionAPIError` answers
`is_server_error or status_code == 429`; `AionRateLimitError`,
`AionConnectionError` and `AionTimeoutError` override it to `True`; the base
`AionError` and `AionWebSocketError` have no such property (modelled
`false`). -/
def AionErr.is_retryable : AionErr → Bool
  | .rateLimited _ _ => true
  | .connection _ => true
  | .timeout _ => true
  | .websocket _ => false
  | .generic _ => false
  | e => match e.statusCode with
    | some s => is_server_error s || s == 429
    | none => false

/-- What a line of Python actually raises: either one of the SDK's own
exceptions, or `TypeError` — raised when a constructor is called with a
keyword its `__init__` does not accept. -/
inductive RaisedErr where
  | aion (e : AionErr) : RaisedErr
  | pyTypeError (msg : String) : RaisedErr
deriving Repr, DecidableEq

/-- `str(e)` as used in `f"Unexpected error: {e}"`: `AionError.__str__`
returns the stored message; for `TypeError` the interpreter's message. -/
def AionErr.message : AionErr → String
  | .authentication m => m
  | .authorization m => m
  | .notFound m => m
  | .validation m => m
  | .rateLimited m _ => m
  | .api m _ => m
  | .connection m => m
  | .timeout m => m
  | .websocket m => m
  | .generic m => m

def RaisedErr.message : RaisedErr → String
  | .aion e => e.message
  | .pyTypeError m => m

/-- An HTTP response as `_handle_response` observes it: status code, the
result of `response.json()` (`none` when JSON decoding raises), the raw
`response.text`, and the `retry-after` header (`none` = absent,
`some none` = present but `int()` fails, `some (some n)` = parsed). -/
structure Response where
  status : Nat
  body : Option Json
  text : String
  retryAfterHeader : Option (Option Int)
deriving Repr

/-- `httpx.Response.is_success`: `200 <= status < 300`. -/
def isSuccess (status : Nat) : Bool := 200 ≤ status && status < 300

/-- Coarse stand-in for Python `str()` applied to a decoded non-dict JSON
value (only reachable for non-object error bodies; no property below
inspects the resulting message). -/
def pyStr : Json → String
  | Json.null => "None"
  | Json.bool true => "True"
  | Json.bool false => "False"
  | Json.num n => toString n
  | Json.str s => s
  | Json.arr _ => "[...]"
  | Json.obj _ => "{...}"

/-- The error-message extraction of `_handle_response`'s non-2xx path:
`response.json()` then `ApiError.model_validate` (falling back to
`response.text or f"HTTP {status}"` when either raises), `str(error_data)`
when the decoded body is not a dict. -/
def errorMessage (r : Response) : String :=
  let fallback := if r.text = "" then "HTTP " ++ toString r.status else r.text
  match r.body with
  | none => fallback
  | some (Json.obj fs) =>
    match validateApiError fs with
    | some m => m
    | none => fallback
  | some j => pyStr j

/-- The `retry_after` hint attached to `AionRateLimitError`: present only
when the `retry-after` header exists and parses as an int. -/
def retryAfterHint (r : Response) : Option Int :=
  match r.retryAfterHeader with
  | none => none
  | some v => v

/-- The status-code dispatch at the end of `_handle_response`.  The 400 arm
is `raise AionValidationError(message, details=details)`, but
`AionValidationError.__init__` accepts `(message, field_errors)` — the call
itself raises `TypeError: __init__() got an unexpected keyword argument
details`, so no `AionValidationError` is ever constructed. -/
def classifyError (r : Response) : RaisedErr :=
  let message := errorMessage r
  if r.status = 401 then .aion (.authentication message)
  else if r.status = 403 then .aion (.authorization message)
  else if r.status = 404 then .aion (.notFound ("Resource not found: " ++ message))
  else if r.status = 400 then
    .pyTypeError "AionValidationError.__init__() got an unexpected keyword argument details"
  else if r.status = 429 then .aion (.rateLimited message (retryAfterHint r))
  else .aion (.api message r.status)

/-- What `_handle_response` hands back on success: decoded JSON, or the raw
text when JSON decoding (or envelope validation) fails. -/
inductive Payload where
  | json (j : Json) : Payload
  | text (s : String) : Payload
deriving Repr

/-- `AionClient._handle_response`.  2xx: decode JSON (decode failure →
return raw text); a dict containing `"data"` is validated as an
`ApiResponse` envelope (validation failure → raw text, the bare
`except Exception` swallowing the `ValidationError`): `success` true
returns the `data` value, `success` false raises `AionAPIError` with the
envelope's message (defaulting to "Unknown API error"); any other decoded
body is returned unchanged.  Non-2xx: `classifyError`. -/
def handle_response (r : Response) : Except RaisedErr Payload :=
  if isSuccess r.status then
    match r.body with
    | none => .ok (.text r.text)
    | some j =>
      match j with
      | Json.obj fs =>
        if (lookupField fs "data").isSome then
          match validateApiResponse fs with
          | none => .ok (.text r.text)
          | some ar =>
            if ar.success then .ok (.json ar.data)
            else .error (.aion (.api (ar.message.getD "Unknown API error") r.status))
        else .ok (.json j)
      | _ => .ok (.json j)
  else .error (classifyError r)

/-- One transport attempt as `AionClient.request`'s `try` block observes it:
`httpx.TimeoutException`, `httpx.ConnectError`, some other exception from
the transport itself, or a response. -/
inductive AttemptOutcome where
  | timeoutExc : AttemptOutcome
  | connectExc (msg : String) : AttemptOutcome
  | otherExc (msg : String) : AttemptOutcome
  | response (r : Response) : AttemptOutcome
deriving Repr

/-- One pass through the `try`/`except` arms of `AionClient.request`,
yielding the payload on success or the error that would be raised were this
the final attempt.  `httpx.TimeoutException` → `AionTimeoutError`,
`httpx.ConnectError` → `AionConnectionError`; everything else — including
every `AionError` or `TypeError` raised by `_handle_response` — lands in
the bare `except Exception` arm and is mapped to the generic
`AionError(f"Unexpected error: {e}")`. -/
def runAttempt (timeoutSecs : Nat) (o : AttemptOutcome) :
    Except AionErr Payload :=
  match o with
  | .timeoutExc =>
    .error (.timeout ("Request timeout after " ++ toString timeoutSecs ++ "s"))
  | .connectExc m => .error (.connection ("Connection failed: " ++ m))
  | .otherExc m => .error (.generic ("Unexpected error: " ++ m))
  | .response r =>
    match handle_response r with
    | .ok p => .ok p
    | .error e => .error (.generic ("Unexpected error: " ++ e.message))

/-- The retry loop of `AionClient.request` from attempt index `attempt` with
`remaining` further attempts allowed; alongside the result it records the
`asyncio.sleep(2**attempt)` backoff delays (in seconds, in order).  The
transport is a function from attempt index to outcome. -/
def requestGo (a : Nat → AttemptOutcome) (timeoutSecs : Nat) (attempt : Nat) :
    Nat → Except AionErr Payload × List Nat
  | 0 =>
    (runAttempt timeoutSecs (a attempt), [])
  | remaining + 1 =>
    match runAttempt timeoutSecs (a attempt) with
    | .ok p => (.ok p, [])
    | .error _ =>
      let rest := requestGo a timeoutSecs (attempt + 1) remaining
      (rest.1, 2 ^ attempt :: rest.2)

/-- `AionClient.request`: `for attempt in range(self.max_retries + 1)`. -/
def request (a : Nat → AttemptOutcome) (maxRetries timeoutSecs : Nat) :
    Except AionErr Payload × List Nat :=
  requestGo a timeoutSecs 0 maxRetries

/-- `models.ProgressEventType`. -/
inductive ProgressEventType where
  | sessionStarted : ProgressEventType
  | taskStarted : ProgressEventType
  | taskProgress : ProgressEventType
  | taskCompleted : ProgressEventType
  | taskFailed : ProgressEventType
  | sessionCompleted : ProgressEventType
  | sessionFailed : ProgressEventType
  | metricsUpdate : ProgressEventType
  | logMessage : ProgressEventType
deriving Repr, DecidableEq

/-- `models.ProgressEvent`, restricted to the fields the subscription engine
reads (`session_id`, `event_type`); session ids stand in for UUIDs as `Nat`,
and the `timestamp`/`data` payload fields are carried opaquely as a tag so
distinct events with equal routing fields stay distinguishable. -/
structure Event where
  session_id : Nat
  event_type : ProgressEventType
  payload : Nat
deriving Repr, DecidableEq

/-- Membership of `wait_for_completion`'s `completion_types` list:
`SESSION_COMPLETED` or `SESSION_FAILED`. -/
def isCompletionType (t : ProgressEventType) : Bool :=
  t = ProgressEventType.sessionCompleted || t = ProgressEventType.sessionFailed

/-- The control frames `WebSocketClient` writes to the socket. -/
inductive Frame where
  | subscribeF (sid : Nat) : Frame
  | unsubscribeF (sid : Nat) : Frame
deriving Repr, DecidableEq

/-- The mutable state of a `WebSocketClient`: `ws` is `none` when
`self._websocket is None`, `some closed` mirrors `self._websocket.closed`;
`subscriptions` models the `self._subscriptions` set (kept duplicate-free by
the guarded insert, mirroring Python set semantics); `running` is
`self._running`. -/
structure WSState where
  ws : Option Bool
  subscriptions : List Nat
  running : Bool
deriving Repr, DecidableEq

/-- `WebSocketClient.connect`: returns immediately when a websocket exists
and is not closed; otherwise opens a fresh socket and sets `_running`
(the spawned `_message_handler` task is modelled separately by
`message_handler_put` / `message_handler_on_end`). -/
def connect (s : WSState) : WSState :=
  match s.ws with
  | some false => s
  | _ => { s with ws := some false, running := true }

/-- `WebSocketClient.subscribe`: connect when `self._websocket is None`;
then, only when the session id is not yet in `_subscriptions`, send one
subscribe frame and add the id.  Returns the new state and the frames
written. -/
def subscribe (sid : Nat) (s : WSState) : WSState × List Frame :=
  let s1 := if s.ws = none then connect s else s
  if sid ∈ s1.subscriptions then (s1, [])
  else ({ s1 with subscriptions := sid :: s1.subscriptions }, [Frame.subscribeF sid])

/-- `WebSocketClient.unsubscribe`: no-op when `self._websocket is None`;
when the id is subscribed, send one unsubscribe frame and discard the id.
The websocket itself is left untouched on every path. -/
def unsubscribe (sid : Nat) (s : WSState) : WSState × List Frame :=
  if s.ws = none then (s, [])
  else if sid ∈ s.subscriptions then
    ({ s with subscriptions := s.subscriptions.erase sid }, [Frame.unsubscribeF sid])
  else (s, [])

/-- `WebSocketClient.disconnect`: clear `_running`, close the websocket if
present and open, clear the subscription set. -/
def disconnect (s : WSState) : WSState :=
  let s1 := { s with running := false }
  let s2 := if s1.ws = some false then { s1 with ws := some true } else s1
  { s2 with subscriptions := [] }

/-- One inbound frame as `_message_handler`'s body sees it after JSON
decoding and `ProgressEvent.model_validate`: `some e` for a valid event
frame, `none` for a frame skipped as invalid. -/
def message_handler_put (s : WSState) (queue : List Event) (decoded : Option Event) :
    List Event :=
  match decoded with
  | some e => queue ++ [e]
  | none => queue

/-- The whole inbound loop of `_message_handler` over a finite frame
sequence, starting from an event queue: every valid event is appended to
the single shared `_event_queue`; the body never reads `_subscriptions`
(the state argument `s` is threaded for `self` but unused by the source). -/
def message_handler_run (s : WSState) (frames : List (Option Event)) : List Event :=
  frames.foldl (fun q m => message_handler_put s q m) []

/-- How `_message_handler` leaves the client when its loop ends:
`websockets.exceptions.ConnectionClosed` and any other exception both clear
only `_running` (the latter also raising `AionWebSocketError` into the
detached task); the subscription set is not touched on either path. -/
inductive HandlerTermination where
  | connectionClosed : HandlerTermination
  | unexpected (msg : String) : HandlerTermination
deriving Repr, DecidableEq

def message_handler_on_end : HandlerTermination → WSState → WSState × Option AionErr
  | .connectionClosed, s => ({ s with running := false }, none)
  | .unexpected m, s =>
    ({ s with running := false }, some (.websocket ("Message handler error: " ++ m)))

/-- `WebSocketClient.events`: drains the shared `_event_queue`, yielding the
queued events once, in arrival order, and ends when `_running` is cleared
and the queue is empty. -/
def events_yield (queue : List Event) : List Event := queue

/-- `WebSocketClient.session_events`: the filter it applies on top of
`events()` — `if event.session_id == session_id: yield event`. -/
def session_events_filter (sid : Nat) (es : List Event) : List Event :=
  es.filter (fun e => e.session_id = sid)

/-- `WebSocketClient.wait_for_completion` over the finite sequence of events
the subscription delivers: scan for the first event that both belongs to the
session (the `session_events` filter) and has a terminal type; return it
with the unconsumed suffix, or raise `AionWebSocketError` when the sequence
ends first. -/
def wait_for_completion (sid : Nat) :
    List Event → Except AionErr (Event × List Event)
  | [] => .error (.websocket "Session completion event not received")
  | e :: rest =>
    if e.session_id = sid ∧ isCompletionType e.event_type then .ok (e, rest)
    else wait_for_completion sid rest

/-- `ProgressListener.wait_for_completion` (`progress.py`): iterates the SSE
event stream and returns the first event whose type is terminal; when the
stream ends without one, the `async for` falls through and the function
implicitly returns `None` — no exception is raised. -/
def sse_wait_for_completion : List Event → Option Event
  | [] => none
  | e :: rest =>
    if isCompletionType e.event_type then some e
    else sse_wait_for_completion rest

/-- Discriminator for the `isinstance(data, dict)` test of
`_handle_response`. -/
def Json.isObj : Json → Bool
  | Json.obj _ => true
  | _ => false

/-- A 401 response whose body is a well-formed `ApiError` document. -/
def resp401 : Response :=
  ⟨401,
   some (Json.obj [("error", Json.str "unauthorized"),
                   ("message", Json.str "Authentication failed")]),
   "body", none⟩

/-- A transport whose every attempt yields the 401 response. -/
def attempts401 : Nat → AttemptOutcome := fun _ => AttemptOutcome.response resp401

/-- A 400 response whose body is a well-formed `ApiError` document. -/
def resp400 : Response :=
  ⟨400,
   some (Json.obj [("error", Json.str "validation_error"),
                   ("message", Json.str "name must not be empty")]),
   "bad request", none⟩

/-- A 200 response with the raw (unwrapped) body `{"x": 1}`. -/
def okXResp : Response := ⟨200, some (Json.obj [("x", Json.num 1)]), "", none⟩

/-- A transport timing out on attempts 0..2 and succeeding on attempt 3. -/
def timeoutsThenSuccess : Nat → AttemptOutcome :=
  fun k => if k < 3 then AttemptOutcome.timeoutExc else AttemptOutcome.response okXResp

/-- A transport timing out on every attempt. -/
def allTimeouts : Nat → AttemptOutcome := fun _ => AttemptOutcome.timeoutExc

/-- A 200 response carrying the envelope
`{"data": {"x": 1}, "success": true}`. -/
def respDataTrue : Response :=
  ⟨200,
   some (Json.obj [("data", Json.obj [("x", Json.num 1)]), ("success", Json.bool true)]),
   "", none⟩

/-- A 200 response carrying the envelope `{"data": 1, "success": false}`. -/
def respDataFalse : Response :=
  ⟨200, some (Json.obj [("data", Json.num 1), ("success", Json.bool false)]), "raw", none⟩

/-- Concrete events: a terminal event of another session, a progress event
and two terminal events of session 1. -/
def evOther : Event := ⟨2, ProgressEventType.sessionCompleted, 0⟩

def evProg : Event := ⟨1, ProgressEventType.taskProgress, 1⟩

def evDone : Event := ⟨1, ProgressEventType.sessionCompleted, 2⟩

def evLate : Event := ⟨1, ProgressEventType.sessionFailed, 3⟩

/-- An open connection subscribed to session 1 only. -/
def st7 : WSState := ⟨some false, [1], true⟩

/-- A valid event for the unsubscribed session 2. -/
def ev2 : Event := ⟨2, ProgressEventType.taskProgress, 0⟩

/-- An open connection whose only subscription is session 7. -/
def st8 : WSState := ⟨some false, [7], true⟩

/-- An open running connection subscribed to session 3. -/
def st9 : WSState := ⟨some false, [3], true⟩

/-- A non-terminal single-event stream. -/
def evStream1 : List Event := [⟨1, ProgressEventType.taskProgress, 0⟩]

/-- Consuming events in front of a given suffix: `wait_for_completion`
skips every event that is not a terminal event of the watched session. -/
theorem wait_skip (sid : Nat) (pre rest : List Event)
    (hpre : ∀ x ∈ pre, ¬(x.session_id = sid ∧ isCompletionType x.event_type)) :
    wait_for_completion sid (pre ++ rest) = wait_for_completion sid rest := by
  induction pre with
  | nil => rfl
  | cons x xs ih =>
    have hx := hpre x (by simp)
    simp only [List.cons_append, wait_for_completion, if_neg hx]
    exact ih (fun y hy => hpre y (by simp [hy]))

/-- The inbound loop appends exactly the valid events, in order, to the
queue it starts from. -/
theorem handler_foldl_append (s : WSState) (frames : List (Option Event)) (q : List Event) :
    frames.foldl (fun acc m => message_handler_put s acc m) q = q ++ frames.filterMap id := by
  induction frames generalizing q with
  | nil => simp
  | cons m ms ih =>
    cases m with
    | none =>
      rw [List.foldl_cons, ih]
      simp [message_handler_put]
    | some e =>
      rw [List.foldl_cons, ih]
      simp [message_handler_put]

/-- Claim C1 (code_bug evidence).  A 401 response classifies to the
non-retryable `AionAuthenticationError`, yet `AionClient.request` does not
raise it to the caller: the bare `except Exception` arm catches it, sleeps
the backoff delays 1, 2 and 4 seconds, retries three more times, and on
exhaustion surfaces the generic wrapper
`AionError("Unexpected error: ...")` — contradicting the claim that
classified errors propagate immediately and that exhaustion surfaces the
last concrete classified error. -/
theorem request_401_retried_and_wrapped :
    handle_response resp401 = .error (.aion (.authentication "Authentication failed")) ∧
    (AionErr.authentication "Authentication failed").is_retryable = false ∧
    request attempts401 3 30 =
      (.error (.generic "Unexpected error: Authentication failed"), [1, 2, 4]) := by
  refine ⟨rfl, rfl, rfl⟩

/-- Claim C2 (confirmed).  With `max_retries = 3` and `timeout = 30`:
a transport timing out on attempts 0..2 and delivering a successfully
handled response on attempt 3 makes `request` return that payload, after
backoff delays of 1 = 2^0, 2 = 2^1 and 4 = 2^2 seconds before retries
1, 2 and 3; a transport timing out on all four attempts makes `request`
raise `AionTimeoutError` after the same delays. -/
theorem request_timeout_retry_backoff
    (a b : Nat → AttemptOutcome) (r : Response) (p : Payload)
    (ha0 : a 0 = AttemptOutcome.timeoutExc)
    (ha1 : a 1 = AttemptOutcome.timeoutExc)
    (ha2 : a 2 = AttemptOutcome.timeoutExc)
    (ha3 : a 3 = AttemptOutcome.response r)
    (hp : handle_response r = .ok p)
    (hb : ∀ k, k ≤ 3 → b k = AttemptOutcome.timeoutExc) :
    request a 3 30 = (.ok p, [1, 2, 4]) ∧
    request b 3 30 = (.error (.timeout "Request timeout after 30s"), [1, 2, 4]) := by
  constructor
  · simp [request, requestGo, runAttempt, ha0, ha1, ha2, ha3, hp]
  · have hb0 := hb 0 (by norm_num)
    have hb1 := hb 1 (by norm_num)
    have hb2 := hb 2 (by norm_num)
    have hb3 := hb 3 (by norm_num)
    simp [request, requestGo, runAttempt, hb0, hb1, hb2, hb3]
    rfl

/-- Witness for C2: the concrete transports instantiating the theorem. -/
theorem request_timeout_retry_backoff_witness :
    request timeoutsThenSuccess 3 30 =
      (.ok (.json (Json.obj [("x", Json.num 1)])), [1, 2, 4]) ∧
    request allTimeouts 3 30 =
      (.error (.timeout "Request timeout after 30s"), [1, 2, 4]) :=
  request_timeout_retry_backoff timeoutsThenSuccess allTimeouts okXResp
    (Payload.json (Json.obj [("x", Json.num 1)]))
    rfl rfl rfl rfl rfl (fun _ _ => rfl)

/-- Claim C3 (code_bug evidence).  On a 400 response the classifier is
meant to raise the non-retryable `AionValidationError`, but the call
`AionValidationError(message, details=details)` passes a keyword that
`AionValidationError.__init__(message, field_errors)` does not accept, so
Python raises `TypeError` instead and no Validation error is ever
produced; the error the table intends would indeed be non-retryable. -/
theorem handle_response_400_raises_typeerror :
    handle_response resp400 =
      .error (.pyTypeError
        "AionValidationError.__init__() got an unexpected keyword argument details") ∧
    (AionErr.validation "name must not be empty").is_retryable = false := by
  constructor <;> rfl

/-- Counterexample for C4: a 2xx body that is an object with a `"data"`
key but `"success": false` does not yield the `"data"` value — it raises
`AionAPIError` with the envelope's message. -/
theorem handle_response_success_false_not_unwrapped :
    handle_response respDataFalse = .error (.aion (.api "Unknown API error" 200)) ∧
    handle_response respDataFalse ≠ .ok (.json (Json.num 1)) := by
  refine ⟨rfl, ?_⟩
  intro h
  have h2 : Except.error (RaisedErr.aion (.api "Unknown API error" 200)) =
      (Except.ok (Payload.json (Json.num 1)) : Except RaisedErr Payload) := by
    rw [← h]
    rfl
  exact Except.noConfusion h2

/-- Claim C4 as amended (corrected).  For every 2xx response:
JSON-decode failure returns the raw text; a decoded non-object body and a
decoded object without a `"data"` key are returned unchanged; an object
with a `"data"` key that validates as an envelope yields the `"data"`
value when `success` is true and raises `AionAPIError` (message defaulting
to "Unknown API error") when `success` is false; an object with a `"data"`
key that fails envelope validation also falls back to the raw text. -/
theorem handle_response_success_spec (r : Response) (h : isSuccess r.status = true) :
    (r.body = none → handle_response r = .ok (.text r.text)) ∧
    (∀ j, r.body = some j → j.isObj = false → handle_response r = .ok (.json j)) ∧
    (∀ fs, r.body = some (Json.obj fs) → lookupField fs "data" = none →
      handle_response r = .ok (.json (Json.obj fs))) ∧
    (∀ fs, r.body = some (Json.obj fs) → (lookupField fs "data").isSome →
      validateApiResponse fs = none → handle_response r = .ok (.text r.text)) ∧
    (∀ fs ar, r.body = some (Json.obj fs) → (lookupField fs "data").isSome →
      validateApiResponse fs = some ar →
      handle_response r =
        (if ar.success then .ok (.json ar.data)
         else .error (.aion (.api (ar.message.getD "Unknown API error") r.status)))) := by
  refine ⟨?_, ?_, ?_, ?_, ?_⟩
  · intro hb
    simp [handle_response, h, hb]
  · intro j hb hobj
    cases j <;> simp_all [handle_response, Json.isObj]
  · intro fs hb hdata
    simp [handle_response, h, hb, hdata]
  · intro fs hb hdata hval
    simp [handle_response, h, hb, hdata, hval]
  · intro fs ar hb hdata hval
    by_cases hs : ar.success <;> simp [handle_response, h, hb, hdata, hval, hs]

/-- Witness for C4: the amended cases at the concrete
`{"data": {"x": 1}, "success": true}` envelope. -/
theorem handle_response_success_spec_witness :
    (respDataTrue.body = none → handle_response respDataTrue = .ok (.text respDataTrue.text)) ∧
    (∀ j, respDataTrue.body = some j → j.isObj = false →
      handle_response respDataTrue = .ok (.json j)) ∧
    (∀ fs, respDataTrue.body = some (Json.obj fs) → lookupField fs "data" = none →
      handle_response respDataTrue = .ok (.json (Json.obj fs))) ∧
    (∀ fs, respDataTrue.body = some (Json.obj fs) → (lookupField fs "data").isSome →
      validateApiResponse fs = none →
      handle_response respDataTrue = .ok (.text respDataTrue.text)) ∧
    (∀ fs ar, respDataTrue.body = some (Json.obj fs) → (lookupField fs "data").isSome →
      validateApiResponse fs = some ar →
      handle_response respDataTrue =
        (if ar.success then .ok (.json ar.data)
         else .error (.aion (.api (ar.message.getD "Unknown API error") respDataTrue.status)))) :=
  handle_response_success_spec respDataTrue rfl

/-- Claim C5 (confirmed).  Over the finite sequence of events a
subscription delivers, `wait_for_completion` returns the first event that
belongs to the watched session and has type SESSION_COMPLETED or
SESSION_FAILED, leaving the entire suffix after it unconsumed; when the
sequence ends without such an event it raises
`AionWebSocketError("Session completion event not received")`. -/
theorem wait_for_completion_spec (sid : Nat) (pre post es : List Event) (e : Event)
    (hpre : ∀ x ∈ pre, ¬(x.session_id = sid ∧ isCompletionType x.event_type))
    (he : e.session_id = sid ∧ isCompletionType e.event_type)
    (hes : ∀ x ∈ es, ¬(x.session_id = sid ∧ isCompletionType x.event_type)) :
    wait_for_completion sid (pre ++ e :: post) = .ok (e, post) ∧
    wait_for_completion sid es =
      .error (.websocket "Session completion event not received") := by
  constructor
  · rw [wait_skip sid pre (e :: post) hpre]
    simp [wait_for_completion, he]
  · have := wait_skip sid es [] hes
    simpa using this

/-- Witness for C5: a stream with a foreign terminal event and a progress
event before the session-1 completion, followed by an unconsumed failure
event; and a stream that ends without a terminal event of session 1. -/
theorem wait_for_completion_spec_witness :
    wait_for_completion 1 ([evOther, evProg] ++ evDone :: [evLate]) = .ok (evDone, [evLate]) ∧
    wait_for_completion 1 [evOther, evProg] =
      .error (.websocket "Session completion event not received") :=
  wait_for_completion_spec 1 [evOther, evProg] [evLate] [evOther, evProg] evDone
    (by decide) (by decide) (by decide)

/-- Claim C6 (confirmed).  With the connection open, `subscribe` is
idempotent per session id: re-subscribing an already-subscribed id changes
nothing and sends no frame; subscribing a fresh id sends exactly one
subscribe frame, a second call sends none, and the id ends up with exactly
one entry in the subscription set. -/
theorem subscribe_idempotent_spec (sid : Nat) (s : WSState)
    (hopen : s.ws = some false) :
    (sid ∈ s.subscriptions → subscribe sid s = (s, [])) ∧
    (sid ∉ s.subscriptions →
      (subscribe sid s).2 = [Frame.subscribeF sid] ∧
      subscribe sid (subscribe sid s).1 = ((subscribe sid s).1, []) ∧
      ((subscribe sid s).1).subscriptions.count sid = 1) := by
  have hns : ¬(s.ws = none) := by simp [hopen]
  constructor
  · intro hmem
    simp [subscribe, hns, hmem]
  · intro hmem
    have h1 : subscribe sid s =
        ({ s with subscriptions := sid :: s.subscriptions }, [Frame.subscribeF sid]) := by
      simp [subscribe, hns, hmem]
    refine ⟨by rw [h1], ?_, ?_⟩
    · rw [h1]
      simp [subscribe, hns]
    · rw [h1]
      simp [List.count_cons]
      exact List.count_eq_zero.mpr hmem

/-- Witness for C6: subscribing session 5 twice on a fresh open
connection. -/
theorem subscribe_idempotent_spec_witness :
    (5 ∈ (⟨some false, [], false⟩ : WSState).subscriptions →
      subscribe 5 ⟨some false, [], false⟩ = (⟨some false, [], false⟩, [])) ∧
    (5 ∉ (⟨some false, [], false⟩ : WSState).subscriptions →
      (subscribe 5 ⟨some false, [], false⟩).2 = [Frame.subscribeF 5] ∧
      subscribe 5 (subscribe 5 ⟨some false, [], false⟩).1 =
        ((subscribe 5 ⟨some false, [], false⟩).1, []) ∧
      ((subscribe 5 ⟨some false, [], false⟩).1).subscriptions.count 5 = 1) :=
  subscribe_idempotent_spec 5 ⟨some false, [], false⟩ rfl

/-- Counterexample for C7: with session 1 the only subscription, a valid
event for the unsubscribed session 2 is still appended to the shared
queue and yielded by `events()` — not discarded. -/
theorem unmatched_event_still_observable :
    events_yield (message_handler_run st7 [some ev2]) = [ev2] ∧
    st7.subscriptions.contains ev2.session_id = false := by
  constructor <;> rfl

/-- Claim C7 as amended (corrected).  `_message_handler` appends every
valid decoded event to the single shared queue, in order and independently
of the subscription set; per-session routing happens only at the consumer:
`session_events(sid)` yields exactly the delivered events whose session id
is `sid`, as an order-preserving subsequence. -/
theorem event_queue_routing_spec (s s' : WSState) (frames : List (Option Event))
    (sid : Nat) (es : List Event) (x : Event) :
    message_handler_run s frames = frames.filterMap id ∧
    message_handler_run s frames = message_handler_run s' frames ∧
    (x ∈ session_events_filter sid es ↔ x ∈ es ∧ x.session_id = sid) ∧
    (session_events_filter sid es).Sublist es := by
  have h1 := handler_foldl_append s frames []
  have h2 := handler_foldl_append s' frames []
  refine ⟨by simpa [message_handler_run] using h1, ?_, ?_, ?_⟩
  · simp only [message_handler_run]
    rw [h1, h2]
  · simp [session_events_filter, List.mem_filter]
  · exact List.filter_sublist es

/-- Counterexample for C8: removing the last remaining subscription via
`unsubscribe` leaves the websocket open (`some false` = present, not
closed) — the connection is not torn down. -/
theorem unsubscribe_last_leaves_connection_open :
    st8.subscriptions = [7] ∧
    unsubscribe 7 st8 = (⟨some false, [], true⟩, [Frame.unsubscribeF 7]) ∧
    ((unsubscribe 7 st8).1).ws = some false := by
  refine ⟨rfl, by decide, by decide⟩

/-- Claim C8 as amended (corrected).  `unsubscribe` never touches the
websocket or the running flag, whatever the remaining subscription count;
the connection is closed only by explicit `disconnect`, which closes an
open socket and clears the subscription set. -/
theorem unsubscribe_never_closes (sid : Nat) (s : WSState) :
    ((unsubscribe sid s).1).ws = s.ws ∧
    ((unsubscribe sid s).1).running = s.running ∧
    (disconnect s).ws = (if s.ws = some false then some true else s.ws) ∧
    (disconnect s).subscriptions = [] := by
  unfold unsubscribe disconnect
  split_ifs <;> simp_all

/-- Counterexample for C9: after the inbound loop dies with
`ConnectionClosed`, the running flag is cleared but session 3 is still in
the subscription set — teardown by transport failure does not clear it. -/
theorem transport_failure_keeps_subscriptions :
    st9.subscriptions = [3] ∧
    message_handler_on_end HandlerTermination.connectionClosed st9 =
      (⟨some false, [3], false⟩, none) ∧
    ((message_handler_on_end HandlerTermination.connectionClosed st9).1).subscriptions = [3] := by
  refine ⟨rfl, rfl, rfl⟩

/-- Claim C9 as amended (corrected).  Explicit `disconnect` clears both the
running flag and the subscription set; either termination of the inbound
message loop (`ConnectionClosed` or any other exception) clears only the
running flag, leaving the subscription set and the socket state intact. -/
theorem teardown_subscriptions_spec (s : WSState) (t : HandlerTermination) :
    (disconnect s).subscriptions = [] ∧
    (disconnect s).running = false ∧
    ((message_handler_on_end t s).1).subscriptions = s.subscriptions ∧
    ((message_handler_on_end t s).1).running = false ∧
    ((message_handler_on_end t s).1).ws = s.ws := by
  refine ⟨?_, ?_, ?_, ?_, ?_⟩
  · simp only [disconnect]
  · simp only [disconnect]
    split_ifs <;> rfl
  · cases t <;> rfl
  · cases t <;> rfl
  · cases t <;> rfl

/-- Claim C10 (confirmed).  On an SSE stream that ends without a terminal
event, the SSE listener's `wait_for_completion` falls off the iteration and
returns `None` instead of raising — while the WebSocket variant on the same
exhausted stream raises
`AionWebSocketError("Session completion event not received")`. -/
theorem sse_wait_no_terminal_returns_none (es : List Event)
    (h : ∀ x ∈ es, isCompletionType x.event_type = false) :
    sse_wait_for_completion es = none ∧
    ∀ sid, wait_for_completion sid es =
      .error (.websocket "Session completion event not received") := by
  constructor
  · induction es with
    | nil => rfl
    | cons x xs ih =>
      have hx := h x (by simp)
      simp only [sse_wait_for_completion, hx, Bool.false_eq_true, if_false]
      exact ih (fun y hy => h y (by simp [hy]))
  · intro sid
    have := wait_skip sid es []
      (fun x hx => by
        have := h x hx
        simp [this])
    simpa using this

/-- Witness for C10: a single non-terminal progress event. -/
theorem sse_wait_no_terminal_returns_none_witness :
    sse_wait_for_completion evStream1 = none ∧
    ∀ sid, wait_for_completion sid evStream1 =
      .error (.websocket "Session completion event not received") :=
  sse_wait_no_terminal_returns_none evStream1 (by decide)
